import Mathlib

/-!
Verification of the model-download utilities: a static-list downloader
(`downlaod_models.py`) and a dynamic fetch-and-download script
(`fetch_and_download_models.py`).  The scripts are embedded shallowly:
the filesystem is a partial map from path strings to file contents, the
external hub client is a parameter (its fetch result), and each Python
function becomes a Lean function on explicit state.
-/

/-! String primitives (Python `in`, `endswith`, `os.path` operations) -/

/-- Boolean test that `sub` occurs as a contiguous substring of `s`
(the semantics of Python's `sub in s` on strings), working on character
lists: either `sub` is a prefix of `s`, or it occurs in the tail. -/
def hasSubstr : List Char → List Char → Bool
  | [], sub => sub.isEmpty
  | c :: t, sub => sub.isPrefixOf (c :: t) || hasSubstr t sub

/-- Python's `sub in s` substring operator on strings. -/
def strContains (s sub : String) : Bool := hasSubstr s.data sub.data

/-- Python's `s.endswith(suffix)`: case-sensitive suffix test. -/
def strEndsWith (s suffix : String) : Bool := suffix.data.isSuffixOf s.data

/-- Whether a path string starts with the separator character
(Python `os.path.isabs` on POSIX, used by `os.path.join`). -/
def startsWithSep (b : String) : Bool :=
  match b.data with
  | [] => false
  | c :: _ => c == '/'

/-- Whether a path string ends with the separator character. -/
def endsWithSep (a : String) : Bool :=
  match a.data.getLast? with
  | some c => c == '/'
  | none => false

/-- POSIX `os.path.join` on two components: an absolute second component
replaces the first; otherwise the components are joined with a single
separator unless one is already present. -/
def osPathJoin (a b : String) : String :=
  if startsWithSep b then b
  else if a = "" then b
  else if endsWithSep a then a ++ b
  else a ++ "/" ++ b

/-- POSIX `os.path.basename`: the part of the path after the final
separator (computed as the longest separator-free suffix). -/
def basename (s : String) : String :=
  ⟨(s.data.reverse.takeWhile (fun c => c != '/')).reverse⟩

/-! Filesystem and process state -/

/-- File contents (abstracted as strings). -/
abbrev Content := String

/-- A filesystem: a partial map from path strings to file contents. -/
def FS : Type := String → Option Content

/-- Point update of a filesystem (`none` models deletion). -/
def fsUpdate (fs : FS) (p : String) (v : Option Content) : FS :=
  fun q => if q = p then v else fs q

/-- Python `os.rename(src, dst)`: the destination receives the source's
contents and the source entry disappears; renaming a path to itself is a
no-op. -/
def osRename (fs : FS) (src dst : String) : FS :=
  if src = dst then fs else fsUpdate (fsUpdate fs dst (fs src)) src none

/-- Python `shutil.copy(src, dst)`: the destination receives the source's
contents and the source entry is left in place. -/
def shutilCopy (fs : FS) (src dst : String) : FS :=
  fsUpdate fs dst (fs src)

/-- Process state for the download scripts: the filesystem plus the log,
one message per line.  The log file is assumed writable here (its failure
mode is modelled separately by `LogSink` and `log`). -/
structure St where
  fs : FS
  log : List String

/-- Append one message to the state's log (the scripts' `log(...)` calls,
under the writable-log assumption). -/
def stLog (st : St) (m : String) : St :=
  { st with log := st.log ++ [m] }

/-- Processing state of one download job (spec section 3): the branch the
single-file downloader's control flow ends in. -/
inductive Outcome where
  | skipped
  | saved
  | failed
deriving DecidableEq

/-! External hub client (out of scope of the repository, modelled from
its use: spec section 6) -/

/-- Cache path the hub client returns for a filename: the configured
cache directory joined with the (repo-relative) filename. -/
def cachePath (filename : String) : String :=
  osPathJoin "./cache_folder" filename

/-- Models the external `hf_hub_download` client (spec section 6): on
success (`fetch = .ok c`) the fetched content `c` is placed at the cache
path, which is returned; a failure surfaces as an exception carrying the
error text. -/
def hf_hub_download (fetch : Except String Content) (filename : String)
    (fs : FS) : Except String (String × FS) :=
  match fetch with
  | .ok c => .ok (cachePath filename, fsUpdate fs (cachePath filename) (some c))
  | .error e => .error e

/-! Configuration constants (source defaults) -/

/-- Default repository identifier (`MODEL_REPO_ID` env default). -/
def REPO_ID : String := "lmstudio-community/Llama-3.3-70B-Instruct-GGUF"

/-- Default quantization tag (`QUANTIZATION` env default). -/
def QUANTIZATION : String := "Q8_0"

/-- Default target directory (`MODEL_DIR` env default). -/
def TARGET_FOLDER : String := "/app/models"

/-- Target path as computed by the static-list downloader
(`downlaod_models.py`, line 42): the target folder joined with the full
filename. -/
def static_target_path (target_folder filename : String) : String :=
  osPathJoin target_folder filename

/-- Target path as computed by the dynamic downloader
(`fetch_and_download_models.py`, line 40): the target folder joined with
the base name of the filename. -/
def dynamic_target_path (target_folder filename : String) : String :=
  osPathJoin target_folder (basename filename)

/-! Repository lister/filter (`fetch_model_files`) -/

/-- The filter predicate of `fetch_model_files` (line 28):
`quantization in file and file.endswith(".gguf")`. -/
def keepFile (quantization file : String) : Bool :=
  strContains file quantization && strEndsWith file ".gguf"

/-- Function `fetch_model_files(repo_id, quantization)`: logs, asks the hub for
the repository's file list (`listing` is the hub call's result), filters
by quantization tag and `.gguf` suffix, and on any exception logs the
error and returns the empty list.  Returns the file list together with
the log. -/
def fetch_model_files (listing : Except String (List String))
    (repo_id quantization : String) (log0 : List String) :
    List String × List String :=
  let log1 := log0 ++ ["Fetching file list from repository: " ++ repo_id]
  match listing with
  | .ok files =>
    let quantized_files := files.filter (fun file => keepFile quantization file)
    (quantized_files,
      log1 ++ ["Found " ++ toString quantized_files.length ++
        " files for quantization level " ++ quantization ++ "."])
  | .error e =>
    ([], log1 ++ ["Failed to fetch files from repository: " ++ e])

/-! Single-file downloaders -/

/-- Function `download_file(repo_id, filename, target_folder)` from
`fetch_and_download_models.py`: fetch into the cache, skip when the
target path (folder joined with the base name) already exists, otherwise
move (`os.rename`) the cached file to the target; every exception is
caught and logged.  `fetch` is the hub client's result and `fault`, when
`some e`, is an exception the transfer step raises (disk or permission
error).  Also returns which branch ran. -/
def download_file (fetch : Except String Content) (fault : Option String)
    (filename target_folder : String) (st : St) : St × Outcome :=
  let st1 := stLog st ("Starting download for " ++ filename)
  match hf_hub_download fetch filename st1.fs with
  | .error e =>
    (stLog st1 ("Failed to download " ++ filename ++ ": " ++ e), .failed)
  | .ok (file_path, fs1) =>
    let st2 : St := ⟨fs1, st1.log⟩
    let target_path := dynamic_target_path target_folder filename
    if (st2.fs target_path).isSome then
      (stLog st2 ("File already exists: " ++ target_path ++ ". Skipping."),
        .skipped)
    else
      let st3 := stLog st2 ("Copying " ++ file_path ++ " to " ++ target_path)
      match fault with
      | some e =>
        (stLog st3 ("Failed to download " ++ filename ++ ": " ++ e), .failed)
      | none =>
        let st4 : St := ⟨osRename st3.fs file_path target_path, st3.log⟩
        (stLog st4 ("Successfully downloaded and saved " ++ filename ++
          " to " ++ target_path), .saved)

/-- Function `download_and_save_model(repo_id, filename, target_folder)` from
`downlaod_models.py`: fetch into the cache, skip when the target path
(folder joined with the full filename) already exists, otherwise copy
(`shutil.copy`) the cached file to the target; every exception is caught
and logged.  Parameters as in `download_file`. -/
def download_and_save_model (fetch : Except String Content)
    (fault : Option String) (repo_id filename target_folder : String)
    (st : St) : St × Outcome :=
  let st1 := stLog st ("Starting download of " ++ filename ++ " from " ++ repo_id)
  match hf_hub_download fetch filename st1.fs with
  | .error e =>
    (stLog st1 ("Error downloading " ++ filename ++ ": " ++ e), .failed)
  | .ok (file_path, fs1) =>
    let st2 : St := ⟨fs1, st1.log⟩
    let target_path := static_target_path target_folder filename
    if (st2.fs target_path).isSome then
      (stLog st2 ("File already exists at " ++ target_path ++
        ". Skipping download."), .skipped)
    else
      let st3 := stLog st2 ("Copying " ++ file_path ++ " to " ++ target_path)
      match fault with
      | some e =>
        (stLog st3 ("Error downloading " ++ filename ++ ": " ++ e), .failed)
      | none =>
        let st4 : St := ⟨shutilCopy st3.fs file_path target_path, st3.log⟩
        (stLog st4 ("Successfully saved " ++ filename ++ " to " ++
          target_path), .saved)

/-! Fan-out downloader (`parallel_download`) -/

/-- State effect of `parallel_download(repo_id, file_list, target_folder)`:
one `download_file` invocation per filename.  Each worker thread writes to
a distinct target path derived from its own filename (spec section 5), so
the joint filesystem effect is modelled as sequential composition in list
order; the thread-level structure is modelled by `parallel_download_trace`.
`fetch` and `fault` give each filename's hub result and transfer fault.
Returns the final state and the per-file outcomes, in list order. -/
def parallel_download (fetch : String → Except String Content)
    (fault : String → Option String) (file_list : List String)
    (target_folder : String) (st : St) : St × List Outcome :=
  match file_list with
  | [] => (st, [])
  | f :: rest =>
    let (st1, o) := download_file (fetch f) (fault f) f target_folder st
    let (st2, os) := parallel_download fetch fault rest target_folder st1
    (st2, o :: os)

/-- A thread-lifecycle event of `parallel_download`: starting a thread
whose target is `download_file(repo_id, filename, target_folder)`, or
joining (waiting for) that thread. -/
inductive TEvent where
  | spawn (repo_id filename target_folder : String)
  | join (repo_id filename target_folder : String)
deriving DecidableEq

/-- Thread-lifecycle trace of `parallel_download`: the first loop starts
one thread per filename in list order, the second loop joins every one of
them; the function returns only once the trace is exhausted. -/
def parallel_download_trace (repo_id : String) (file_list : List String)
    (target_folder : String) : List TEvent :=
  file_list.map (fun f => TEvent.spawn repo_id f target_folder) ++
    file_list.map (fun f => TEvent.join repo_id f target_folder)

/-- The filename of a spawn event, if it is one. -/
def spawnName : TEvent → Option String
  | .spawn _ f _ => some f
  | .join _ _ _ => none

/-- The filename of a join event, if it is one. -/
def joinName : TEvent → Option String
  | .join _ f _ => some f
  | .spawn _ _ _ => none

/-! Entry points -/

/-- The `__main__` block of `fetch_and_download_models.py`: start marker,
fetch-and-filter, then either the parallel download (when files were
found) or a "no files" line, then the end marker.  Returns the final
state and the per-file outcomes. -/
def dynamicMain (listing : Except String (List String))
    (fetch : String → Except String Content) (fault : String → Option String)
    (repo_id quantization target_folder : String) (st : St) :
    St × List Outcome :=
  let stA := stLog st "Starting GGUF model download process..."
  let (quantized_files, log1) :=
    fetch_model_files listing repo_id quantization stA.log
  let st1 : St := ⟨stA.fs, log1⟩
  let (st2, outs) :=
    if quantized_files.isEmpty then
      (stLog st1 ("No files found for quantization level " ++ quantization ++ "."),
        ([] : List Outcome))
    else parallel_download fetch fault quantized_files target_folder st1
  (stLog st2 "GGUF model download process completed.", outs)

/-- The hard-coded `MODEL_FILES` list of `downlaod_models.py`:
(repo_id, filename, target_folder) triples. -/
def MODEL_FILES : List (String × String × String) :=
  [("lmstudio-community/Llama-3.3-70B-Instruct-GGUF",
    "Llama-3.3-70B-Instruct-Q8_0-00001-of-00002.gguf", "/app/models"),
   ("lmstudio-community/Llama-3.3-70B-Instruct-GGUF",
    "Llama-3.3-70B-Instruct-Q8_0-00002-of-00002.gguf", "/app/models")]

/-- The sequential loop of `downlaod_models.py`'s `__main__`: one
`download_and_save_model` call per configured model, in order. -/
def runModels (fetch : String → Except String Content)
    (fault : String → Option String) :
    List (String × String × String) → St → St × List Outcome
  | [], st => (st, [])
  | (r, f, t) :: ms, st =>
    let (st1, o) := download_and_save_model (fetch f) (fault f) r f t st
    let (st2, os) := runModels fetch fault ms st1
    (st2, o :: os)

/-- The `__main__` block of `downlaod_models.py`: start marker, the
sequential loop over `MODEL_FILES`, end marker. -/
def staticMain (fetch : String → Except String Content)
    (fault : String → Option String) (st : St) : St × List Outcome :=
  let stA := stLog st "Download script started."
  let (st1, os) := runModels fetch fault MODEL_FILES stA
  (stLog st1 "Download script finished.", os)

/-! Logger with its failure mode -/

/-- The log sink shared by both scripts: whether the log file can be
opened for append, the log file's byte content, and standard output
(echoed messages). -/
structure LogSink where
  writable : Bool
  content : String
  stdout : List String

/-- The scripts' `log(message)` function: open the log file for append,
write the message followed by a newline, close, and print the message.
When the log file cannot be opened the open call raises and nothing in
`log` catches it, so the operation fails. -/
def log (message : String) (s : LogSink) : Except String LogSink :=
  if s.writable then
    .ok { s with content := s.content ++ (message ++ "\n"),
                 stdout := s.stdout ++ [message] }
  else .error "PermissionError"

/-! Helper lemmas: filesystem updates -/

theorem fsUpdate_self (fs : FS) (p : String) (v : Option Content) :
    fsUpdate fs p v p = v := by
  simp [fsUpdate]

theorem fsUpdate_ne (fs : FS) (p q : String) (v : Option Content)
    (h : q ≠ p) : fsUpdate fs p v q = fs q := by
  simp [fsUpdate, h]

/-! Helper lemmas: substring and suffix tests -/

theorem hasSubstr_iff (s sub : List Char) :
    hasSubstr s sub = true ↔ sub <:+: s := by
  induction s with
  | nil =>
    simp [hasSubstr, List.isEmpty_iff]
  | cons c t ih =>
    simp [hasSubstr, List.isPrefixOf_iff_prefix, ih, List.infix_cons_iff]

theorem strContains_iff (s sub : String) :
    strContains s sub = true ↔ sub.data <:+: s.data := by
  simp [strContains, hasSubstr_iff]

theorem strEndsWith_iff (s suffix : String) :
    strEndsWith s suffix = true ↔ suffix.data <:+ s.data := by
  simp [strEndsWith, List.isSuffixOf_iff_suffix]

theorem strContains_append_mid (a b c : String) :
    strContains (a ++ b ++ c) b = true := by
  rw [strContains_iff, String.data_append, String.data_append]
  exact ⟨a.data, c.data, by simp⟩

theorem strContains_append_right (a b : String) :
    strContains (a ++ b) b = true := by
  rw [strContains_iff, String.data_append]
  exact ⟨a.data, [], by simp⟩

/-! Helper lemmas: branch equations of `download_file` -/

theorem dl_eq_err (e : String) (fa : Option String) (f folder : String)
    (st : St) :
    download_file (.error e) fa f folder st =
      (⟨st.fs, st.log ++ ["Starting download for " ++ f,
        "Failed to download " ++ f ++ ": " ++ e]⟩, .failed) := by
  simp [download_file, hf_hub_download, stLog]

theorem dl_eq_skip (c : Content) (fa : Option String) (f folder : String)
    (st : St)
    (h : (fsUpdate st.fs (cachePath f) (some c)
      (dynamic_target_path folder f)).isSome = true) :
    download_file (.ok c) fa f folder st =
      (⟨fsUpdate st.fs (cachePath f) (some c),
        st.log ++ ["Starting download for " ++ f,
          "File already exists: " ++ dynamic_target_path folder f ++
            ". Skipping."]⟩, .skipped) := by
  simp [download_file, hf_hub_download, stLog, h]

theorem dl_eq_save (c : Content) (f folder : String) (st : St)
    (h : fsUpdate st.fs (cachePath f) (some c)
      (dynamic_target_path folder f) = none) :
    download_file (.ok c) none f folder st =
      (⟨osRename (fsUpdate st.fs (cachePath f) (some c)) (cachePath f)
          (dynamic_target_path folder f),
        st.log ++ ["Starting download for " ++ f,
          "Copying " ++ cachePath f ++ " to " ++ dynamic_target_path folder f,
          "Successfully downloaded and saved " ++ f ++ " to " ++
            dynamic_target_path folder f]⟩, .saved) := by
  simp [download_file, hf_hub_download, stLog, h]

theorem dl_eq_fault (c : Content) (e : String) (f folder : String) (st : St)
    (h : fsUpdate st.fs (cachePath f) (some c)
      (dynamic_target_path folder f) = none) :
    download_file (.ok c) (some e) f folder st =
      (⟨fsUpdate st.fs (cachePath f) (some c),
        st.log ++ ["Starting download for " ++ f,
          "Copying " ++ cachePath f ++ " to " ++ dynamic_target_path folder f,
          "Failed to download " ++ f ++ ": " ++ e]⟩, .failed) := by
  simp [download_file, hf_hub_download, stLog, h]

/-! Helper lemmas: branch equations of `download_and_save_model` -/

theorem dsm_eq_err (e : String) (fa : Option String) (r f folder : String)
    (st : St) :
    download_and_save_model (.error e) fa r f folder st =
      (⟨st.fs, st.log ++ ["Starting download of " ++ f ++ " from " ++ r,
        "Error downloading " ++ f ++ ": " ++ e]⟩, .failed) := by
  simp [download_and_save_model, hf_hub_download, stLog]

theorem dsm_eq_skip (c : Content) (fa : Option String) (r f folder : String)
    (st : St)
    (h : (fsUpdate st.fs (cachePath f) (some c)
      (static_target_path folder f)).isSome = true) :
    download_and_save_model (.ok c) fa r f folder st =
      (⟨fsUpdate st.fs (cachePath f) (some c),
        st.log ++ ["Starting download of " ++ f ++ " from " ++ r,
          "File already exists at " ++ static_target_path folder f ++
            ". Skipping download."]⟩, .skipped) := by
  simp [download_and_save_model, hf_hub_download, stLog, h]

theorem dsm_eq_save (c : Content) (r f folder : String) (st : St)
    (h : fsUpdate st.fs (cachePath f) (some c)
      (static_target_path folder f) = none) :
    download_and_save_model (.ok c) none r f folder st =
      (⟨shutilCopy (fsUpdate st.fs (cachePath f) (some c)) (cachePath f)
          (static_target_path folder f),
        st.log ++ ["Starting download of " ++ f ++ " from " ++ r,
          "Copying " ++ cachePath f ++ " to " ++ static_target_path folder f,
          "Successfully saved " ++ f ++ " to " ++
            static_target_path folder f]⟩, .saved) := by
  simp [download_and_save_model, hf_hub_download, stLog, h]

theorem dsm_eq_fault (c : Content) (e : String) (r f folder : String)
    (st : St)
    (h : fsUpdate st.fs (cachePath f) (some c)
      (static_target_path folder f) = none) :
    download_and_save_model (.ok c) (some e) r f folder st =
      (⟨fsUpdate st.fs (cachePath f) (some c),
        st.log ++ ["Starting download of " ++ f ++ " from " ++ r,
          "Copying " ++ cachePath f ++ " to " ++ static_target_path folder f,
          "Error downloading " ++ f ++ ": " ++ e]⟩, .failed) := by
  simp [download_and_save_model, hf_hub_download, stLog, h]

/-! Helper lemmas: per-step filesystem facts, dynamic downloader -/

theorem dl_cp_ne_tp (c : Content) (f folder : String) (st : St)
    (h : fsUpdate st.fs (cachePath f) (some c)
      (dynamic_target_path folder f) = none) :
    cachePath f ≠ dynamic_target_path folder f := by
  intro hEq
  rw [← hEq, fsUpdate_self] at h
  exact Option.noConfusion h

theorem dl_fs_outside (fe : Except String Content) (fa : Option String)
    (f folder : String) (st : St) (p : String) (hcp : p ≠ cachePath f)
    (htp : p ≠ dynamic_target_path folder f) :
    ((download_file fe fa f folder st).1).fs p = st.fs p := by
  cases fe with
  | error e => rw [dl_eq_err]
  | ok c =>
    by_cases h : (fsUpdate st.fs (cachePath f) (some c)
        (dynamic_target_path folder f)).isSome = true
    · rw [dl_eq_skip c fa f folder st h]
      exact fsUpdate_ne _ _ _ _ hcp
    · have h' : fsUpdate st.fs (cachePath f) (some c)
          (dynamic_target_path folder f) = none :=
        Option.not_isSome_iff_eq_none.mp h
      have hne := dl_cp_ne_tp c f folder st h'
      cases fa with
      | none =>
        rw [dl_eq_save c f folder st h']
        show osRename _ _ _ p = _
        rw [osRename, if_neg hne, fsUpdate_ne _ _ _ _ hcp,
          fsUpdate_ne _ _ _ _ htp, fsUpdate_ne _ _ _ _ hcp]
      | some e =>
        rw [dl_eq_fault c e f folder st h']
        exact fsUpdate_ne _ _ _ _ hcp

theorem dl_fs_isSome (fe : Except String Content) (fa : Option String)
    (f folder : String) (st : St) (p : String) (hcp : p ≠ cachePath f)
    (hs : (st.fs p).isSome = true) :
    (((download_file fe fa f folder st).1).fs p).isSome = true := by
  cases fe with
  | error e => rw [dl_eq_err]; exact hs
  | ok c =>
    by_cases h : (fsUpdate st.fs (cachePath f) (some c)
        (dynamic_target_path folder f)).isSome = true
    · rw [dl_eq_skip c fa f folder st h]
      show ((fsUpdate st.fs (cachePath f) (some c)) p).isSome = true
      rw [fsUpdate_ne _ _ _ _ hcp]; exact hs
    · have h' : fsUpdate st.fs (cachePath f) (some c)
          (dynamic_target_path folder f) = none :=
        Option.not_isSome_iff_eq_none.mp h
      have hne := dl_cp_ne_tp c f folder st h'
      cases fa with
      | none =>
        rw [dl_eq_save c f folder st h']
        show ((osRename _ _ _) p).isSome = true
        rw [osRename, if_neg hne]
        by_cases htp : p = dynamic_target_path folder f
        · rw [fsUpdate_ne _ _ _ _ hcp, htp, fsUpdate_self, fsUpdate_self]
          rfl
        · rw [fsUpdate_ne _ _ _ _ hcp, fsUpdate_ne _ _ _ _ htp,
            fsUpdate_ne _ _ _ _ hcp]
          exact hs
      | some e =>
        rw [dl_eq_fault c e f folder st h']
        show ((fsUpdate st.fs (cachePath f) (some c)) p).isSome = true
        rw [fsUpdate_ne _ _ _ _ hcp]; exact hs

theorem dl_target_some (c : Content) (f folder : String) (st : St) :
    (((download_file (.ok c) none f folder st).1).fs
      (dynamic_target_path folder f)).isSome = true := by
  by_cases h : (fsUpdate st.fs (cachePath f) (some c)
      (dynamic_target_path folder f)).isSome = true
  · rw [dl_eq_skip c none f folder st h]
    exact h
  · have h' : fsUpdate st.fs (cachePath f) (some c)
        (dynamic_target_path folder f) = none :=
      Option.not_isSome_iff_eq_none.mp h
    have hne := dl_cp_ne_tp c f folder st h'
    rw [dl_eq_save c f folder st h']
    show ((osRename _ _ _) (dynamic_target_path folder f)).isSome = true
    rw [osRename, if_neg hne, fsUpdate_ne _ _ _ _ (Ne.symm hne),
      fsUpdate_self, fsUpdate_self]
    rfl

theorem dl_skip_of_some (c : Content) (fa : Option String)
    (f folder : String) (st : St)
    (hs : (st.fs (dynamic_target_path folder f)).isSome = true) :
    download_file (.ok c) fa f folder st =
      (⟨fsUpdate st.fs (cachePath f) (some c),
        st.log ++ ["Starting download for " ++ f,
          "File already exists: " ++ dynamic_target_path folder f ++
            ". Skipping."]⟩, .skipped) := by
  apply dl_eq_skip
  by_cases hEq : dynamic_target_path folder f = cachePath f
  · rw [hEq, fsUpdate_self]; rfl
  · rw [fsUpdate_ne _ _ _ _ hEq]; exact hs

/-! Helper lemmas: per-step filesystem facts, static downloader -/

theorem dsm_cp_ne_tp (c : Content) (f folder : String) (st : St)
    (h : fsUpdate st.fs (cachePath f) (some c)
      (static_target_path folder f) = none) :
    cachePath f ≠ static_target_path folder f := by
  intro hEq
  rw [← hEq, fsUpdate_self] at h
  exact Option.noConfusion h

theorem dsm_fs_outside (fe : Except String Content) (fa : Option String)
    (r f folder : String) (st : St) (p : String) (hcp : p ≠ cachePath f)
    (htp : p ≠ static_target_path folder f) :
    ((download_and_save_model fe fa r f folder st).1).fs p = st.fs p := by
  cases fe with
  | error e => rw [dsm_eq_err]
  | ok c =>
    by_cases h : (fsUpdate st.fs (cachePath f) (some c)
        (static_target_path folder f)).isSome = true
    · rw [dsm_eq_skip c fa r f folder st h]
      exact fsUpdate_ne _ _ _ _ hcp
    · have h' : fsUpdate st.fs (cachePath f) (some c)
          (static_target_path folder f) = none :=
        Option.not_isSome_iff_eq_none.mp h
      cases fa with
      | none =>
        rw [dsm_eq_save c r f folder st h']
        show shutilCopy _ _ _ p = _
        rw [shutilCopy, fsUpdate_ne _ _ _ _ htp, fsUpdate_ne _ _ _ _ hcp]
      | some e =>
        rw [dsm_eq_fault c e r f folder st h']
        exact fsUpdate_ne _ _ _ _ hcp

theorem dsm_fs_isSome (fe : Except String Content) (fa : Option String)
    (r f folder : String) (st : St) (p : String) (hcp : p ≠ cachePath f)
    (hs : (st.fs p).isSome = true) :
    (((download_and_save_model fe fa r f folder st).1).fs p).isSome = true := by
  cases fe with
  | error e => rw [dsm_eq_err]; exact hs
  | ok c =>
    by_cases h : (fsUpdate st.fs (cachePath f) (some c)
        (static_target_path folder f)).isSome = true
    · rw [dsm_eq_skip c fa r f folder st h]
      show ((fsUpdate st.fs (cachePath f) (some c)) p).isSome = true
      rw [fsUpdate_ne _ _ _ _ hcp]; exact hs
    · have h' : fsUpdate st.fs (cachePath f) (some c)
          (static_target_path folder f) = none :=
        Option.not_isSome_iff_eq_none.mp h
      cases fa with
      | none =>
        rw [dsm_eq_save c r f folder st h']
        show ((shutilCopy _ _ _) p).isSome = true
        rw [shutilCopy]
        by_cases htp : p = static_target_path folder f
        · rw [htp, fsUpdate_self, fsUpdate_self]; rfl
        · rw [fsUpdate_ne _ _ _ _ htp, fsUpdate_ne _ _ _ _ hcp]; exact hs
      | some e =>
        rw [dsm_eq_fault c e r f folder st h']
        show ((fsUpdate st.fs (cachePath f) (some c)) p).isSome = true
        rw [fsUpdate_ne _ _ _ _ hcp]; exact hs

theorem dsm_target_some (c : Content) (r f folder : String) (st : St) :
    (((download_and_save_model (.ok c) none r f folder st).1).fs
      (static_target_path folder f)).isSome = true := by
  by_cases h : (fsUpdate st.fs (cachePath f) (some c)
      (static_target_path folder f)).isSome = true
  · rw [dsm_eq_skip c none r f folder st h]
    exact h
  · have h' : fsUpdate st.fs (cachePath f) (some c)
        (static_target_path folder f) = none :=
      Option.not_isSome_iff_eq_none.mp h
    rw [dsm_eq_save c r f folder st h']
    show ((shutilCopy _ _ _) (static_target_path folder f)).isSome = true
    rw [shutilCopy, fsUpdate_self, fsUpdate_self]
    rfl

theorem dsm_skip_of_some (c : Content) (fa : Option String)
    (r f folder : String) (st : St)
    (hs : (st.fs (static_target_path folder f)).isSome = true) :
    download_and_save_model (.ok c) fa r f folder st =
      (⟨fsUpdate st.fs (cachePath f) (some c),
        st.log ++ ["Starting download of " ++ f ++ " from " ++ r,
          "File already exists at " ++ static_target_path folder f ++
            ". Skipping download."]⟩, .skipped) := by
  apply dsm_eq_skip
  by_cases hEq : static_target_path folder f = cachePath f
  · rw [hEq, fsUpdate_self]; rfl
  · rw [fsUpdate_ne _ _ _ _ hEq]; exact hs

/-! Helper lemmas: unfolding the fold-level runners -/

theorem par_nil (fetch : String → Except String Content)
    (fault : String → Option String) (folder : String) (st : St) :
    parallel_download fetch fault [] folder st = (st, []) := rfl

theorem par_cons (fetch : String → Except String Content)
    (fault : String → Option String) (f : String) (rest : List String)
    (folder : String) (st : St) :
    parallel_download fetch fault (f :: rest) folder st =
      ((parallel_download fetch fault rest folder
          (download_file (fetch f) (fault f) f folder st).1).1,
        (download_file (fetch f) (fault f) f folder st).2 ::
          (parallel_download fetch fault rest folder
            (download_file (fetch f) (fault f) f folder st).1).2) := rfl

theorem runModels_nil (fetch : String → Except String Content)
    (fault : String → Option String) (st : St) :
    runModels fetch fault [] st = (st, []) := rfl

theorem runModels_cons (fetch : String → Except String Content)
    (fault : String → Option String) (m : String × String × String)
    (ms : List (String × String × String)) (st : St) :
    runModels fetch fault (m :: ms) st =
      ((runModels fetch fault ms
          (download_and_save_model (fetch m.2.1) (fault m.2.1) m.1 m.2.1
            m.2.2 st).1).1,
        (download_and_save_model (fetch m.2.1) (fault m.2.1) m.1 m.2.1
          m.2.2 st).2 ::
          (runModels fetch fault ms
            (download_and_save_model (fetch m.2.1) (fault m.2.1) m.1 m.2.1
              m.2.2 st).1).2) := by
  cases m with
  | mk r rest => cases rest with
    | mk f t => rfl

/-! Helper lemmas: whole-batch facts, dynamic fan-out -/

theorem par_fs_isSome (fetch : String → Except String Content)
    (fault : String → Option String) (folder : String) :
    ∀ (l : List String) (st : St) (p : String),
      (st.fs p).isSome = true → (∀ f ∈ l, p ≠ cachePath f) →
      (((parallel_download fetch fault l folder st).1).fs p).isSome = true := by
  intro l
  induction l with
  | nil => intro st p hs _; rw [par_nil]; exact hs
  | cons f rest ih =>
    intro st p hs hcp
    rw [par_cons]
    exact ih _ p
      (dl_fs_isSome (fetch f) (fault f) f folder st p
        (hcp f (List.mem_cons_self f rest)) hs)
      (fun g hg => hcp g (List.mem_cons_of_mem f hg))

theorem par_targets_some (fetch : String → Except String Content)
    (fault : String → Option String) (folder : String) :
    ∀ (l : List String) (st : St),
      (∀ f ∈ l, ∃ c, fetch f = .ok c) → (∀ f ∈ l, fault f = none) →
      (∀ f g, f ∈ l → g ∈ l → cachePath g ≠ dynamic_target_path folder f) →
      ∀ f ∈ l,
        (((parallel_download fetch fault l folder st).1).fs
          (dynamic_target_path folder f)).isSome = true := by
  intro l
  induction l with
  | nil => intro st _ _ _ f hf; exact absurd hf (List.not_mem_nil f)
  | cons f0 rest ih =>
    intro st h1 h0 h2 f hf
    rw [par_cons]
    rcases List.mem_cons.mp hf with hEq | hmem
    · obtain ⟨c, hc⟩ := h1 f0 (List.mem_cons_self f0 rest)
      have hfa := h0 f0 (List.mem_cons_self f0 rest)
      rw [hEq]
      apply par_fs_isSome fetch fault folder rest _ _
      · rw [hc, hfa]
        exact dl_target_some c f0 folder st
      · intro g hg
        exact (h2 f0 g (List.mem_cons_self f0 rest)
          (List.mem_cons_of_mem f0 hg)).symm
    · exact ih _
        (fun g hg => h1 g (List.mem_cons_of_mem f0 hg))
        (fun g hg => h0 g (List.mem_cons_of_mem f0 hg))
        (fun g g' hg hg' => h2 g g' (List.mem_cons_of_mem f0 hg)
          (List.mem_cons_of_mem f0 hg'))
        f hmem

theorem par_all_skip (fetch : String → Except String Content)
    (fault : String → Option String) (folder : String) :
    ∀ (l : List String) (st : St),
      (∀ f ∈ l, ∃ c, fetch f = .ok c) →
      (∀ f ∈ l, (st.fs (dynamic_target_path folder f)).isSome = true) →
      (∀ f g, f ∈ l → g ∈ l → cachePath g ≠ dynamic_target_path folder f) →
      (∀ o ∈ (parallel_download fetch fault l folder st).2, o = .skipped) ∧
      (∀ p, (∀ g ∈ l, p ≠ cachePath g) →
        ((parallel_download fetch fault l folder st).1).fs p = st.fs p) := by
  intro l
  induction l with
  | nil =>
    intro st _ _ _
    rw [par_nil]
    exact ⟨fun o ho => absurd ho (List.not_mem_nil o), fun p _ => rfl⟩
  | cons f0 rest ih =>
    intro st h1 hsome h2
    obtain ⟨c, hc⟩ := h1 f0 (List.mem_cons_self f0 rest)
    have hstep : download_file (fetch f0) (fault f0) f0 folder st =
        (⟨fsUpdate st.fs (cachePath f0) (some c),
          st.log ++ ["Starting download for " ++ f0,
            "File already exists: " ++ dynamic_target_path folder f0 ++
              ". Skipping."]⟩, .skipped) := by
      rw [hc]
      exact dl_skip_of_some c (fault f0) f0 folder st
        (hsome f0 (List.mem_cons_self f0 rest))
    have hrest := ih ⟨fsUpdate st.fs (cachePath f0) (some c),
        st.log ++ ["Starting download for " ++ f0,
          "File already exists: " ++ dynamic_target_path folder f0 ++
            ". Skipping."]⟩
      (fun g hg => h1 g (List.mem_cons_of_mem f0 hg))
      (by
        intro g hg
        show ((fsUpdate st.fs (cachePath f0) (some c))
          (dynamic_target_path folder g)).isSome = true
        rw [fsUpdate_ne _ _ _ _
          (h2 g f0 (List.mem_cons_of_mem f0 hg)
            (List.mem_cons_self f0 rest)).symm]
        exact hsome g (List.mem_cons_of_mem f0 hg))
      (fun g g' hg hg' => h2 g g' (List.mem_cons_of_mem f0 hg)
        (List.mem_cons_of_mem f0 hg'))
    constructor
    · intro o ho
      rw [par_cons, hstep] at ho
      rcases List.mem_cons.mp ho with hEq | hmem
      · exact hEq
      · exact hrest.1 o hmem
    · intro p hp
      rw [par_cons, hstep]
      have := hrest.2 p (fun g hg => hp g (List.mem_cons_of_mem f0 hg))
      rw [this]
      show (fsUpdate st.fs (cachePath f0) (some c)) p = st.fs p
      exact fsUpdate_ne _ _ _ _ (hp f0 (List.mem_cons_self f0 rest))

/-! Helper lemmas: whole-batch facts, static loop -/

theorem runModels_fs_isSome (fetch : String → Except String Content)
    (fault : String → Option String) :
    ∀ (ms : List (String × String × String)) (st : St) (p : String),
      (st.fs p).isSome = true → (∀ m ∈ ms, p ≠ cachePath m.2.1) →
      (((runModels fetch fault ms st).1).fs p).isSome = true := by
  intro ms
  induction ms with
  | nil => intro st p hs _; rw [runModels_nil]; exact hs
  | cons m rest ih =>
    intro st p hs hcp
    rw [runModels_cons]
    exact ih _ p
      (dsm_fs_isSome (fetch m.2.1) (fault m.2.1) m.1 m.2.1 m.2.2 st p
        (hcp m (List.mem_cons_self m rest)) hs)
      (fun g hg => hcp g (List.mem_cons_of_mem m hg))

theorem runModels_targets_some (fetch : String → Except String Content)
    (fault : String → Option String) :
    ∀ (ms : List (String × String × String)) (st : St),
      (∀ m ∈ ms, ∃ c, fetch m.2.1 = .ok c) →
      (∀ m ∈ ms, fault m.2.1 = none) →
      (∀ m m', m ∈ ms → m' ∈ ms →
        cachePath m'.2.1 ≠ static_target_path m.2.2 m.2.1) →
      ∀ m ∈ ms,
        (((runModels fetch fault ms st).1).fs
          (static_target_path m.2.2 m.2.1)).isSome = true := by
  intro ms
  induction ms with
  | nil => intro st _ _ _ m hm; exact absurd hm (List.not_mem_nil m)
  | cons m0 rest ih =>
    intro st h1 h0 h2 m hm
    rw [runModels_cons]
    rcases List.mem_cons.mp hm with hEq | hmem
    · obtain ⟨c, hc⟩ := h1 m0 (List.mem_cons_self m0 rest)
      have hfa := h0 m0 (List.mem_cons_self m0 rest)
      rw [hEq]
      apply runModels_fs_isSome fetch fault rest _ _
      · rw [hc, hfa]
        exact dsm_target_some c m0.1 m0.2.1 m0.2.2 st
      · intro g hg
        exact (h2 m0 g (List.mem_cons_self m0 rest)
          (List.mem_cons_of_mem m0 hg)).symm
    · exact ih _
        (fun g hg => h1 g (List.mem_cons_of_mem m0 hg))
        (fun g hg => h0 g (List.mem_cons_of_mem m0 hg))
        (fun g g' hg hg' => h2 g g' (List.mem_cons_of_mem m0 hg)
          (List.mem_cons_of_mem m0 hg'))
        m hmem

theorem runModels_all_skip (fetch : String → Except String Content)
    (fault : String → Option String) :
    ∀ (ms : List (String × String × String)) (st : St),
      (∀ m ∈ ms, ∃ c, fetch m.2.1 = .ok c) →
      (∀ m ∈ ms,
        (st.fs (static_target_path m.2.2 m.2.1)).isSome = true) →
      (∀ m m', m ∈ ms → m' ∈ ms →
        cachePath m'.2.1 ≠ static_target_path m.2.2 m.2.1) →
      (∀ o ∈ (runModels fetch fault ms st).2, o = .skipped) ∧
      (∀ p, (∀ m ∈ ms, p ≠ cachePath m.2.1) →
        ((runModels fetch fault ms st).1).fs p = st.fs p) := by
  intro ms
  induction ms with
  | nil =>
    intro st _ _ _
    rw [runModels_nil]
    exact ⟨fun o ho => absurd ho (List.not_mem_nil o), fun p _ => rfl⟩
  | cons m0 rest ih =>
    intro st h1 hsome h2
    obtain ⟨c, hc⟩ := h1 m0 (List.mem_cons_self m0 rest)
    have hstep : download_and_save_model (fetch m0.2.1) (fault m0.2.1)
        m0.1 m0.2.1 m0.2.2 st =
        (⟨fsUpdate st.fs (cachePath m0.2.1) (some c),
          st.log ++ ["Starting download of " ++ m0.2.1 ++ " from " ++ m0.1,
            "File already exists at " ++ static_target_path m0.2.2 m0.2.1 ++
              ". Skipping download."]⟩, .skipped) := by
      rw [hc]
      exact dsm_skip_of_some c (fault m0.2.1) m0.1 m0.2.1 m0.2.2 st
        (hsome m0 (List.mem_cons_self m0 rest))
    have hrest := ih ⟨fsUpdate st.fs (cachePath m0.2.1) (some c),
        st.log ++ ["Starting download of " ++ m0.2.1 ++ " from " ++ m0.1,
          "File already exists at " ++ static_target_path m0.2.2 m0.2.1 ++
            ". Skipping download."]⟩
      (fun g hg => h1 g (List.mem_cons_of_mem m0 hg))
      (by
        intro g hg
        show ((fsUpdate st.fs (cachePath m0.2.1) (some c))
          (static_target_path g.2.2 g.2.1)).isSome = true
        rw [fsUpdate_ne _ _ _ _
          (h2 g m0 (List.mem_cons_of_mem m0 hg)
            (List.mem_cons_self m0 rest)).symm]
        exact hsome g (List.mem_cons_of_mem m0 hg))
      (fun g g' hg hg' => h2 g g' (List.mem_cons_of_mem m0 hg)
        (List.mem_cons_of_mem m0 hg'))
    constructor
    · intro o ho
      rw [runModels_cons, hstep] at ho
      rcases List.mem_cons.mp ho with hEq | hmem
      · exact hEq
      · exact hrest.1 o hmem
    · intro p hp
      rw [runModels_cons, hstep]
      have := hrest.2 p (fun g hg => hp g (List.mem_cons_of_mem m0 hg))
      rw [this]
      show (fsUpdate st.fs (cachePath m0.2.1) (some c)) p = st.fs p
      exact fsUpdate_ne _ _ _ _ (hp m0 (List.mem_cons_self m0 rest))

/-! Helper lemmas: entry points -/

theorem fetch_files_fst_log (listing : Except String (List String))
    (rid q : String) (l l' : List String) :
    (fetch_model_files listing rid q l).1 =
      (fetch_model_files listing rid q l').1 := by
  cases listing <;> rfl

theorem staticMain_unfold (fetch : String → Except String Content)
    (fault : String → Option String) (st : St) :
    staticMain fetch fault st =
      (stLog (runModels fetch fault MODEL_FILES
          (stLog st "Download script started.")).1 "Download script finished.",
        (runModels fetch fault MODEL_FILES
          (stLog st "Download script started.")).2) := rfl

theorem dynamicMain_of_empty (listing : Except String (List String))
    (fetch : String → Except String Content) (fault : String → Option String)
    (rid q folder : String) (st : St)
    (h : (fetch_model_files listing rid q []).1.isEmpty = true) :
    dynamicMain listing fetch fault rid q folder st =
      (stLog (stLog ⟨st.fs, (fetch_model_files listing rid q (st.log ++
            ["Starting GGUF model download process..."])).2⟩
          ("No files found for quantization level " ++ q ++ "."))
        "GGUF model download process completed.", []) := by
  unfold dynamicMain
  dsimp only [stLog]
  cases hfm : fetch_model_files listing rid q
      (st.log ++ ["Starting GGUF model download process..."]) with
  | mk files L =>
    have h1 : (fetch_model_files listing rid q []).1 = files := by
      rw [fetch_files_fst_log listing rid q []
        (st.log ++ ["Starting GGUF model download process..."]), hfm]
    rw [if_pos (by rw [← h1]; exact h)]

theorem dynamicMain_of_nonempty (listing : Except String (List String))
    (fetch : String → Except String Content) (fault : String → Option String)
    (rid q folder : String) (st : St)
    (h : (fetch_model_files listing rid q []).1.isEmpty = false) :
    dynamicMain listing fetch fault rid q folder st =
      (stLog (parallel_download fetch fault
          (fetch_model_files listing rid q []).1 folder
          ⟨st.fs, (fetch_model_files listing rid q (st.log ++
            ["Starting GGUF model download process..."])).2⟩).1
        "GGUF model download process completed.",
        (parallel_download fetch fault
          (fetch_model_files listing rid q []).1 folder
          ⟨st.fs, (fetch_model_files listing rid q (st.log ++
            ["Starting GGUF model download process..."])).2⟩).2) := by
  unfold dynamicMain
  dsimp only [stLog]
  cases hfm : fetch_model_files listing rid q
      (st.log ++ ["Starting GGUF model download process..."]) with
  | mk files L =>
    have h1 : (fetch_model_files listing rid q []).1 = files := by
      rw [fetch_files_fst_log listing rid q []
        (st.log ++ ["Starting GGUF model download process..."]), hfm]
    rw [if_neg (by rw [← h1]; simp [h])]
    rw [← h1]

/-! Helper lemmas: base names -/

theorem takeWhile_all_append (p : Char → Bool) (l₁ : List Char) (c : Char)
    (l₂ : List Char) (h : ∀ a ∈ l₁, p a = true) (hc : p c = false) :
    (l₁ ++ c :: l₂).takeWhile p = l₁ := by
  induction l₁ with
  | nil => simp [List.takeWhile, hc]
  | cons a t ih =>
    have ha : p a = true := h a (List.mem_cons_self a t)
    simp only [List.cons_append, List.takeWhile_cons, ha, if_true]
    rw [ih (fun b hb => h b (List.mem_cons_of_mem a hb))]

theorem string_mk_data (s : String) : (⟨s.data⟩ : String) = s := rfl

theorem basename_no_sep (f : String) (hf : ∀ c ∈ f.data, c ≠ '/') :
    basename f = f := by
  unfold basename
  rw [List.takeWhile_eq_self_iff.mpr, List.reverse_reverse, string_mk_data]
  intro c hc
  simpa using hf c (List.mem_reverse.mp hc)

theorem basename_drops_directory (d f : String)
    (hf : ∀ c ∈ f.data, c ≠ '/') : basename (d ++ "/" ++ f) = f := by
  unfold basename
  rw [String.data_append, String.data_append]
  rw [show ("/" : String).data = ['/'] from rfl]
  rw [List.append_assoc, List.singleton_append, List.reverse_append,
    List.reverse_cons, List.append_assoc, List.singleton_append]
  rw [takeWhile_all_append _ _ _ _
    (fun a ha => by simpa using hf a (List.mem_reverse.mp ha)) (by decide)]
  rw [List.reverse_reverse, string_mk_data]

/-! Helper lemmas: fan-out sizes -/

theorem par_length (fetch : String → Except String Content)
    (fault : String → Option String) (folder : String) :
    ∀ (l : List String) (st : St),
      (parallel_download fetch fault l folder st).2.length = l.length := by
  intro l
  induction l with
  | nil => intro st; rfl
  | cons f rest ih =>
    intro st
    rw [par_cons]
    simp [ih]

/-! Claims -/

/-- C1.  The repository lister/filter keeps exactly the listed names that
contain the quantization tag as a substring and end in ".gguf", in their
original relative order (the result is a sublist of the listing, and a
name is kept iff it is listed, has the tag as an infix, and has the
".gguf" suffix); on the spec's example listing with quantization "Q8_0"
the result is exactly ["A-Q8_0-001.gguf"]. -/
theorem fetch_filter_correct :
    (∀ (files : List String) (rid q : String) (log0 : List String),
      ((fetch_model_files (.ok files) rid q log0).1).Sublist files ∧
      (∀ f, f ∈ (fetch_model_files (.ok files) rid q log0).1 ↔
        (f ∈ files ∧ q.data <:+: f.data ∧
          (".gguf" : String).data <:+ f.data))) ∧
    (fetch_model_files (.ok ["A-Q8_0-001.gguf", "A-Q4_0-001.gguf",
        "readme.md"]) REPO_ID "Q8_0" []).1 = ["A-Q8_0-001.gguf"] := by
  constructor
  · intro files rid q log0
    constructor
    · show (files.filter (fun file => keepFile q file)).Sublist files
      exact List.filter_sublist files
    · intro f
      show f ∈ files.filter (fun file => keepFile q file) ↔ _
      rw [List.mem_filter]
      simp [keepFile, Bool.and_eq_true, strContains_iff, strEndsWith_iff]
  · decide

/-- C2.  When the hub listing call raises, `fetch_model_files` logs the
failure and returns the empty list (a recovered failure), and the
orchestrator consequently performs no download calls at all (the run's
per-file outcome list is empty). -/
theorem listing_error_recovered :
    ∀ (e rid q : String) (log0 : List String)
      (fetch : String → Except String Content)
      (fault : String → Option String) (folder : String) (st : St),
      fetch_model_files (.error e) rid q log0 =
        ([], log0 ++ ["Fetching file list from repository: " ++ rid,
          "Failed to fetch files from repository: " ++ e]) ∧
      (dynamicMain (.error e) fetch fault rid q folder st).2 = [] := by
  intro e rid q log0 fetch fault folder st
  constructor
  · show (([] : List String), (log0 ++ [_]) ++ [_]) = _
    rw [List.append_assoc]
    rfl
  · rw [dynamicMain_of_empty _ _ _ _ _ _ _ (by rfl)]

/-- C10.  The quantization filter is a case-sensitive substring test over
the whole repo-relative name together with a case-sensitive ".gguf"
suffix test: a lowercase tag or an uppercase ".GGUF" extension is
excluded, while a name whose directory component carries the tag is
included even though its base name does not contain it. -/
theorem filter_case_sensitive_whole_name :
    (fetch_model_files (.ok ["A-q8_0-001.gguf"]) REPO_ID "Q8_0" []).1 = [] ∧
    (fetch_model_files (.ok ["A-Q8_0-001.GGUF"]) REPO_ID "Q8_0" []).1 = [] ∧
    (fetch_model_files (.ok ["Q8_0/part-001.gguf"]) REPO_ID "Q8_0" []).1 =
      ["Q8_0/part-001.gguf"] ∧
    strContains (basename "Q8_0/part-001.gguf") "Q8_0" = false ∧
    keepFile "q8_0" "A-Q8_0-001.gguf" = false ∧
    keepFile "Q8_0" "A-Q8_0-001.gguf" = true := by decide

/-- C9.  The logger appends the message followed by exactly one newline
to the log file content and echoes the message to standard output; when
the log file cannot be opened, the operation itself raises (nothing
inside the logger catches the failure). -/
theorem log_append_and_fail :
    ∀ (message : String) (s : LogSink),
      (s.writable = true →
        log message s = .ok ⟨true, s.content ++ (message ++ "\n"),
          s.stdout ++ [message]⟩) ∧
      (s.writable = false → log message s = .error "PermissionError") := by
  intro message s
  cases s with
  | mk w c out =>
    constructor
    · intro h
      subst h
      simp [log]
    · intro h
      subst h
      simp [log]

/-- Witness for C9 at a concrete sink: a writable sink gets the message
plus one newline appended and the message echoed; an unwritable sink
makes the log call raise. -/
theorem log_append_and_fail_witness :
    log "hello" ⟨true, "x\n", []⟩ =
      .ok ⟨true, "x\nhello\n", ["hello"]⟩ ∧
    log "hello" ⟨false, "", []⟩ = .error "PermissionError" := by
  constructor
  · exact (log_append_and_fail "hello" ⟨true, "x\n", []⟩).1 rfl
  · exact (log_append_and_fail "hello" ⟨false, "", []⟩).2 rfl

/-- C8.  The fan-out downloader starts exactly one thread per listed
filename (the spawn events of its trace are the filenames, in order,
with multiplicity), each thread's target being the single-file
downloader; it joins every one of those threads before returning (a join
event for every filename occurs in the trace), and a run produces
exactly one per-file outcome per filename. -/
theorem fanout_one_thread_per_file :
    ∀ (rid : String) (files : List String) (folder : String)
      (fetch : String → Except String Content)
      (fault : String → Option String) (st : St),
      (parallel_download_trace rid files folder).filterMap spawnName =
        files ∧
      (parallel_download_trace rid files folder).filterMap joinName =
        files ∧
      (∀ f ∈ files, TEvent.join rid f folder ∈
        parallel_download_trace rid files folder) ∧
      (parallel_download fetch fault files folder st).2.length =
        files.length := by
  intro rid files folder fetch fault st
  have hss : ∀ fs : List String,
      (fs.map (fun f => TEvent.spawn rid f folder)).filterMap spawnName = fs := by
    intro fs
    induction fs with
    | nil => rfl
    | cons f t ih => simp [spawnName, ih]
  have hsj : ∀ fs : List String,
      (fs.map (fun f => TEvent.join rid f folder)).filterMap spawnName =
        [] := by
    intro fs
    induction fs with
    | nil => rfl
    | cons f t ih => simp [spawnName, ih]
  have hjs : ∀ fs : List String,
      (fs.map (fun f => TEvent.spawn rid f folder)).filterMap joinName =
        [] := by
    intro fs
    induction fs with
    | nil => rfl
    | cons f t ih => simp [joinName, ih]
  have hjj : ∀ fs : List String,
      (fs.map (fun f => TEvent.join rid f folder)).filterMap joinName = fs := by
    intro fs
    induction fs with
    | nil => rfl
    | cons f t ih => simp [joinName, ih]
  refine ⟨?_, ?_, ?_, par_length fetch fault folder files st⟩
  · rw [parallel_download_trace, List.filterMap_append, hss, hsj,
      List.append_nil]
  · rw [parallel_download_trace, List.filterMap_append, hjs, hjj,
      List.nil_append]
  · intro f hf
    exact List.mem_append_right _
      (List.mem_map_of_mem (fun f => TEvent.join rid f folder) hf)

/-- Witness for C8 on a concrete two-file batch: the spawn events list
exactly the two filenames and the first file's join event is in the
trace. -/
theorem fanout_one_thread_per_file_witness :
    (parallel_download_trace REPO_ID ["a.gguf", "b.gguf"]
      TARGET_FOLDER).filterMap spawnName = ["a.gguf", "b.gguf"] ∧
    TEvent.join REPO_ID "a.gguf" TARGET_FOLDER ∈
      parallel_download_trace REPO_ID ["a.gguf", "b.gguf"] TARGET_FOLDER := by
  have h := fanout_one_thread_per_file REPO_ID ["a.gguf", "b.gguf"]
    TARGET_FOLDER (fun _ => .ok "c") (fun _ => none) ⟨fun _ => none, []⟩
  exact ⟨h.1, h.2.2.1 "a.gguf" (by decide)⟩

/-- Substring containment for a middle component of a three-way append
(the shape of the downloaders' failure log lines). -/
theorem strContains_parts (x f y z : String) :
    strContains (((x ++ f) ++ y) ++ z) f = true := by
  rw [strContains_iff]
  refine ⟨x.data, y.data ++ z.data, ?_⟩
  simp [String.data_append, List.append_assoc]

/-- C3 counterexample.  The target path already exists before the call,
yet because the fetch-to-cache step raises (it runs before the existence
check), the run logs the failure line and no "Skipping" line at all: the
claim's "produces a skipping log line" fails on this input. -/
theorem skip_line_missing_on_fetch_error :
    ((⟨fun p => if p = "/app/models/x.gguf" then some "old" else none, []⟩ :
        St).fs (dynamic_target_path "/app/models" "x.gguf")).isSome = true ∧
    ((download_file (.error "connection error") none "x.gguf" "/app/models"
        ⟨fun p => if p = "/app/models/x.gguf" then some "old" else none,
          []⟩).1).log.all (fun l => !(strContains l "Skipping")) = true ∧
    (download_file (.error "connection error") none "x.gguf" "/app/models"
        ⟨fun p => if p = "/app/models/x.gguf" then some "old" else none,
          []⟩).2 = Outcome.failed := by decide

/-- C3 (amended).  When the target path already exists before a
single-file download call (and the hub cache path is distinct from it),
the call leaves the target's contents unchanged and writes nothing
outside the hub cache path — no transfer to the target ever happens —
and whenever the fetch-to-cache step raises no exception the call takes
the skip branch and produces the "skipping" log line.  Both downloaders
are covered. -/
theorem target_preexists_unchanged :
    ∀ (fe : Except String Content) (fa : Option String)
      (f folder rid : String) (st : St),
      ((st.fs (dynamic_target_path folder f)).isSome = true →
        cachePath f ≠ dynamic_target_path folder f →
        ((((download_file fe fa f folder st).1).fs
            (dynamic_target_path folder f) =
          st.fs (dynamic_target_path folder f)) ∧
        (∀ p, p ≠ cachePath f →
          ((download_file fe fa f folder st).1).fs p = st.fs p) ∧
        (∀ c, fe = .ok c → (download_file fe fa f folder st).2 = .skipped ∧
          (download_file fe fa f folder st).1.log = st.log ++
            ["Starting download for " ++ f,
             "File already exists: " ++ dynamic_target_path folder f ++
               ". Skipping."]))) ∧
      ((st.fs (static_target_path folder f)).isSome = true →
        cachePath f ≠ static_target_path folder f →
        ((((download_and_save_model fe fa rid f folder st).1).fs
            (static_target_path folder f) =
          st.fs (static_target_path folder f)) ∧
        (∀ p, p ≠ cachePath f →
          ((download_and_save_model fe fa rid f folder st).1).fs p =
            st.fs p) ∧
        (∀ c, fe = .ok c →
          (download_and_save_model fe fa rid f folder st).2 = .skipped ∧
          (download_and_save_model fe fa rid f folder st).1.log = st.log ++
            ["Starting download of " ++ f ++ " from " ++ rid,
             "File already exists at " ++ static_target_path folder f ++
               ". Skipping download."]))) := by
  intro fe fa f folder rid st
  constructor
  · intro hs hcp
    have hb : ∀ p, p ≠ cachePath f →
        ((download_file fe fa f folder st).1).fs p = st.fs p := by
      intro p hp
      cases fe with
      | error e => rw [dl_eq_err]
      | ok c =>
        rw [dl_skip_of_some c fa f folder st hs]
        exact fsUpdate_ne _ _ _ _ hp
    refine ⟨hb _ (Ne.symm hcp), hb, ?_⟩
    intro c hc
    subst hc
    rw [dl_skip_of_some c fa f folder st hs]
    exact ⟨rfl, rfl⟩
  · intro hs hcp
    have hb : ∀ p, p ≠ cachePath f →
        ((download_and_save_model fe fa rid f folder st).1).fs p =
          st.fs p := by
      intro p hp
      cases fe with
      | error e => rw [dsm_eq_err]
      | ok c =>
        rw [dsm_skip_of_some c fa rid f folder st hs]
        exact fsUpdate_ne _ _ _ _ hp
    refine ⟨hb _ (Ne.symm hcp), hb, ?_⟩
    intro c hc
    subst hc
    rw [dsm_skip_of_some c fa rid f folder st hs]
    exact ⟨rfl, rfl⟩

/-- Witness for C3 at a concrete pre-existing target: the target keeps
its old contents and the call reports the skip branch. -/
theorem target_preexists_unchanged_witness :
    ((download_file (.ok "new") none "x.gguf" "/app/models"
        ⟨fun p => if p = "/app/models/x.gguf" then some "old" else none,
          []⟩).1).fs (dynamic_target_path "/app/models" "x.gguf") =
      (⟨fun p => if p = "/app/models/x.gguf" then some "old" else none,
        []⟩ : St).fs (dynamic_target_path "/app/models" "x.gguf") ∧
    (download_file (.ok "new") none "x.gguf" "/app/models"
      ⟨fun p => if p = "/app/models/x.gguf" then some "old" else none,
        []⟩).2 = Outcome.skipped := by
  have h := (target_preexists_unchanged (.ok "new") none "x.gguf"
    "/app/models" REPO_ID
    ⟨fun p => if p = "/app/models/x.gguf" then some "old" else none, []⟩).1
    (by decide) (by decide)
  exact ⟨h.1, (h.2.2 "new" rfl).1⟩

/-- C4.  Every exception raised during fetch or transfer is caught by the
single-file downloader, which logs a line containing both the filename
and the error text and returns normally with the `failed` outcome; and,
whatever the environment does, both entry points run to their final log
marker (the process finishes normally, exiting zero). -/
theorem errors_swallowed_and_logged :
    ∀ (e f folder rid : String) (fa : Option String) (st : St),
      ((download_file (.error e) fa f folder st).2 = .failed ∧
        (download_file (.error e) fa f folder st).1.log =
          st.log ++ ["Starting download for " ++ f,
            "Failed to download " ++ f ++ ": " ++ e] ∧
        strContains ("Failed to download " ++ f ++ ": " ++ e) f = true ∧
        strContains ("Failed to download " ++ f ++ ": " ++ e) e = true) ∧
      (∀ c, fsUpdate st.fs (cachePath f) (some c)
          (dynamic_target_path folder f) = none →
        (download_file (.ok c) (some e) f folder st).2 = .failed ∧
        (download_file (.ok c) (some e) f folder st).1.log =
          st.log ++ ["Starting download for " ++ f,
            "Copying " ++ cachePath f ++ " to " ++
              dynamic_target_path folder f,
            "Failed to download " ++ f ++ ": " ++ e]) ∧
      ((download_and_save_model (.error e) fa rid f folder st).2 =
          .failed ∧
        (download_and_save_model (.error e) fa rid f folder st).1.log =
          st.log ++ ["Starting download of " ++ f ++ " from " ++ rid,
            "Error downloading " ++ f ++ ": " ++ e] ∧
        strContains ("Error downloading " ++ f ++ ": " ++ e) f = true ∧
        strContains ("Error downloading " ++ f ++ ": " ++ e) e = true) ∧
      (∀ c, fsUpdate st.fs (cachePath f) (some c)
          (static_target_path folder f) = none →
        (download_and_save_model (.ok c) (some e) rid f folder st).2 =
          .failed ∧
        (download_and_save_model (.ok c) (some e) rid f folder st).1.log =
          st.log ++ ["Starting download of " ++ f ++ " from " ++ rid,
            "Copying " ++ cachePath f ++ " to " ++
              static_target_path folder f,
            "Error downloading " ++ f ++ ": " ++ e]) ∧
      (∀ (fetch : String → Except String Content)
          (fault : String → Option String),
        (staticMain fetch fault st).1.log.getLast? =
          some "Download script finished.") ∧
      (∀ (listing : Except String (List String))
          (fetch : String → Except String Content)
          (fault : String → Option String) (q : String),
        (dynamicMain listing fetch fault rid q folder st).1.log.getLast? =
          some "GGUF model download process completed.") := by
  intro e f folder rid fa st
  refine ⟨?_, ?_, ?_, ?_, ?_, ?_⟩
  · rw [dl_eq_err]
    exact ⟨rfl, rfl, strContains_parts "Failed to download " f ": " e,
      strContains_append_right _ e⟩
  · intro c h
    rw [dl_eq_fault c e f folder st h]
    exact ⟨rfl, rfl⟩
  · rw [dsm_eq_err]
    exact ⟨rfl, rfl, strContains_parts "Error downloading " f ": " e,
      strContains_append_right _ e⟩
  · intro c h
    rw [dsm_eq_fault c e rid f folder st h]
    exact ⟨rfl, rfl⟩
  · intro fetch fault
    rw [staticMain_unfold]
    simp [stLog]
  · intro listing fetch fault q
    cases h : (fetch_model_files listing rid q []).1.isEmpty with
    | false =>
      rw [dynamicMain_of_nonempty listing fetch fault rid q folder st h]
      simp [stLog]
    | true =>
      rw [dynamicMain_of_empty listing fetch fault rid q folder st h]
      simp [stLog]

/-- Witness for C4 at concrete inputs: a transfer fault and a fetch
failure both end in the `failed` outcome (the call returns normally). -/
theorem errors_swallowed_and_logged_witness :
    (download_file (.ok "DATA") (some "disk full") "x.gguf" "/app/models"
      ⟨fun _ => none, []⟩).2 = Outcome.failed ∧
    (download_file (.error "boom") none "x.gguf" "/app/models"
      ⟨fun _ => none, []⟩).2 = Outcome.failed := by
  refine ⟨((errors_swallowed_and_logged "disk full" "x.gguf" "/app/models"
    REPO_ID none ⟨fun _ => none, []⟩).2.1 "DATA" (by decide)).1, ?_⟩
  exact (errors_swallowed_and_logged "boom" "x.gguf" "/app/models"
    REPO_ID none ⟨fun _ => none, []⟩).1.1

/-- C5 counterexample.  For the filename "sub/x.gguf" (base name
"x.gguf") the static-list downloader saves the fetched content at the
target directory joined with the full filename, and nothing at the
directory joined with the base name — so the claim that both downloaders
join the target directory with the base name is false. -/
theorem static_target_keeps_directory :
    basename "sub/x.gguf" = "x.gguf" ∧
    ((download_and_save_model (.ok "DATA") none REPO_ID "sub/x.gguf"
        "/app/models" ⟨fun _ => none, []⟩).1).fs
      (osPathJoin "/app/models" (basename "sub/x.gguf")) = none ∧
    ((download_and_save_model (.ok "DATA") none REPO_ID "sub/x.gguf"
        "/app/models" ⟨fun _ => none, []⟩).1).fs
      "/app/models/sub/x.gguf" = some "DATA" := by decide

/-- C5 (amended).  The dynamic downloader computes the target path as the
target directory joined with the base name of the filename, so only the
final path component is appended (directory components are dropped); the
static-list downloader joins the target directory with the full filename,
so a filename containing path separators keeps its directory components.
The two computations agree exactly on separator-free filenames. -/
theorem target_path_computation :
    ∀ (folder d f : String),
      (dynamic_target_path folder f = osPathJoin folder (basename f)) ∧
      ((∀ c ∈ f.data, c ≠ '/') →
        dynamic_target_path folder (d ++ "/" ++ f) = osPathJoin folder f) ∧
      (static_target_path folder f = osPathJoin folder f) ∧
      ((∀ c ∈ f.data, c ≠ '/') →
        static_target_path folder f = dynamic_target_path folder f) := by
  intro folder d f
  refine ⟨rfl, ?_, rfl, ?_⟩
  · intro hf
    unfold dynamic_target_path
    rw [basename_drops_directory d f hf]
  · intro hf
    unfold static_target_path dynamic_target_path
    rw [basename_no_sep f hf]

/-- Witness for C5 at concrete paths: the dynamic computation drops the
"sub/" directory component and the two computations agree on a
separator-free name. -/
theorem target_path_computation_witness :
    dynamic_target_path "/app/models" ("sub" ++ "/" ++ "x.gguf") =
      osPathJoin "/app/models" "x.gguf" ∧
    static_target_path "/app/models" "x.gguf" =
      dynamic_target_path "/app/models" "x.gguf" := by
  have h := target_path_computation "/app/models" "sub" "x.gguf"
  exact ⟨h.2.1 (by decide), h.2.2.2 (by decide)⟩

/-- C6.  With a fresh target and a successful fetch, the static-list
downloader transfers by copying — afterwards the target holds the fetched
content and the hub cache file is still in place — while the dynamic
downloader transfers by renaming — afterwards the target holds the
fetched content and the cache entry is gone from its original path; both
report the `saved` branch. -/
theorem transfer_copy_vs_move :
    ∀ (c : Content) (f folder rid : String) (st : St),
      (st.fs (dynamic_target_path folder f) = none →
        cachePath f ≠ dynamic_target_path folder f →
        (((download_file (.ok c) none f folder st).1).fs
            (dynamic_target_path folder f) = some c ∧
          ((download_file (.ok c) none f folder st).1).fs (cachePath f) =
            none ∧
          (download_file (.ok c) none f folder st).2 = .saved)) ∧
      (st.fs (static_target_path folder f) = none →
        cachePath f ≠ static_target_path folder f →
        (((download_and_save_model (.ok c) none rid f folder st).1).fs
            (static_target_path folder f) = some c ∧
          ((download_and_save_model (.ok c) none rid f folder st).1).fs
            (cachePath f) = some c ∧
          (download_and_save_model (.ok c) none rid f folder st).2 =
            .saved)) := by
  intro c f folder rid st
  constructor
  · intro hT hne
    have h : fsUpdate st.fs (cachePath f) (some c)
        (dynamic_target_path folder f) = none := by
      rw [fsUpdate_ne _ _ _ _ (Ne.symm hne)]
      exact hT
    rw [dl_eq_save c f folder st h]
    refine ⟨?_, ?_, rfl⟩
    · show (osRename _ _ _) (dynamic_target_path folder f) = some c
      rw [osRename, if_neg hne, fsUpdate_ne _ _ _ _ (Ne.symm hne),
        fsUpdate_self, fsUpdate_self]
    · show (osRename _ _ _) (cachePath f) = none
      rw [osRename, if_neg hne, fsUpdate_self]
  · intro hT hne
    have h : fsUpdate st.fs (cachePath f) (some c)
        (static_target_path folder f) = none := by
      rw [fsUpdate_ne _ _ _ _ (Ne.symm hne)]
      exact hT
    rw [dsm_eq_save c rid f folder st h]
    refine ⟨?_, ?_, rfl⟩
    · show (shutilCopy _ _ _) (static_target_path folder f) = some c
      rw [shutilCopy, fsUpdate_self, fsUpdate_self]
    · show (shutilCopy _ _ _) (cachePath f) = some c
      rw [shutilCopy, fsUpdate_ne _ _ _ _ hne, fsUpdate_self]

/-- Witness for C6 on an empty filesystem: the dynamic downloader leaves
no cache entry behind while the static downloader keeps it, and both
place the fetched content at their target path. -/
theorem transfer_copy_vs_move_witness :
    ((download_file (.ok "DATA") none "x.gguf" "/app/models"
        ⟨fun _ => none, []⟩).1).fs
      (dynamic_target_path "/app/models" "x.gguf") = some "DATA" ∧
    ((download_file (.ok "DATA") none "x.gguf" "/app/models"
        ⟨fun _ => none, []⟩).1).fs (cachePath "x.gguf") = none ∧
    ((download_and_save_model (.ok "DATA") none REPO_ID "x.gguf"
        "/app/models" ⟨fun _ => none, []⟩).1).fs (cachePath "x.gguf") =
      some "DATA" := by
  have h := transfer_copy_vs_move "DATA" "x.gguf" "/app/models" REPO_ID
    ⟨fun _ => none, []⟩
  have hd := h.1 rfl (by decide)
  have hs := h.2 rfl (by decide)
  exact ⟨hd.1, hd.2.1, hs.2.1⟩

/-- Second run of the dynamic fan-out over a state whose filesystem is
the result of a first run: every outcome is a skip and target paths are
untouched. -/
theorem par_run2 (fetch : String → Except String Content) (folder : String)
    (files : List String) (st st' : St)
    (hfs : st'.fs =
      (parallel_download fetch (fun _ => none) files folder st).1.fs)
    (h1 : ∀ f ∈ files, ∃ c, fetch f = .ok c)
    (h2 : ∀ f g, f ∈ files → g ∈ files →
      cachePath g ≠ dynamic_target_path folder f) :
    (∀ o ∈ (parallel_download fetch (fun _ => none) files folder st').2,
      o = .skipped) ∧
    (∀ f ∈ files,
      (parallel_download fetch (fun _ => none) files folder st').1.fs
        (dynamic_target_path folder f) =
      st'.fs (dynamic_target_path folder f)) := by
  have hsome : ∀ f ∈ files,
      (st'.fs (dynamic_target_path folder f)).isSome = true := by
    intro f hf
    rw [hfs]
    exact par_targets_some fetch (fun _ => none) folder files st h1
      (fun _ _ => rfl) h2 f hf
  have hall := par_all_skip fetch (fun _ => none) folder files st' h1
    hsome h2
  exact ⟨hall.1, fun f hf =>
    hall.2 _ (fun g hg => (h2 f g hf hg).symm)⟩

/-- Second run of the static loop over a state whose filesystem is the
result of a first run: every outcome is a skip and target paths are
untouched. -/
theorem runModels_run2 (fetch : String → Except String Content)
    (ms : List (String × String × String)) (st st' : St)
    (hfs : st'.fs = (runModels fetch (fun _ => none) ms st).1.fs)
    (h1 : ∀ m ∈ ms, ∃ c, fetch m.2.1 = .ok c)
    (h2 : ∀ m m', m ∈ ms → m' ∈ ms →
      cachePath m'.2.1 ≠ static_target_path m.2.2 m.2.1) :
    (∀ o ∈ (runModels fetch (fun _ => none) ms st').2, o = .skipped) ∧
    (∀ m ∈ ms,
      (runModels fetch (fun _ => none) ms st').1.fs
        (static_target_path m.2.2 m.2.1) =
      st'.fs (static_target_path m.2.2 m.2.1)) := by
  have hsome : ∀ m ∈ ms,
      (st'.fs (static_target_path m.2.2 m.2.1)).isSome = true := by
    intro m hm
    rw [hfs]
    exact runModels_targets_some fetch (fun _ => none) ms st h1
      (fun _ _ => rfl) h2 m hm
  have hall := runModels_all_skip fetch (fun _ => none) ms st' h1 hsome h2
  exact ⟨hall.1, fun m hm =>
    hall.2 _ (fun g hg => (h2 m g hm hg).symm)⟩

/-- C7 counterexample.  With unchanged inputs whose fetch always raises,
the second run of the dynamic pipeline takes the failure branch for its
file, not the "already exists" skip branch: the claim that every
per-file operation of the second run takes the skip branch is false. -/
theorem second_run_not_skipped_on_fetch_error :
    (dynamicMain (.ok ["A-Q8_0.gguf"]) (fun _ => .error "connection error")
      (fun _ => none) REPO_ID "Q8_0" "/app/models"
      (dynamicMain (.ok ["A-Q8_0.gguf"]) (fun _ => .error "connection error")
        (fun _ => none) REPO_ID "Q8_0" "/app/models"
        ⟨fun _ => none, []⟩).1).2 = [Outcome.failed] ∧
    Outcome.failed ≠ Outcome.skipped := by decide

/-- C7 (amended).  Running either pipeline twice with the same inputs,
when every per-file fetch succeeds (and, for the dynamic pipeline, hub
cache paths are distinct from all target paths), leaves the target files
exactly as after the first run, raises nothing on the second run, and
every per-file operation of the second run takes the "already exists"
skip branch.  (A file whose fetch deterministically fails takes the
failure branch in both runs instead.) -/
theorem pipeline_idempotent :
    ∀ (listing : Except String (List String))
      (fetch : String → Except String Content) (rid q folder : String)
      (st : St),
      (∀ f ∈ (fetch_model_files listing rid q []).1, ∃ c, fetch f = .ok c) →
      (∀ f ∈ (fetch_model_files listing rid q []).1,
        ∀ g ∈ (fetch_model_files listing rid q []).1,
          cachePath g ≠ dynamic_target_path folder f) →
      (((∀ o ∈ (dynamicMain listing fetch (fun _ => none) rid q folder
            (dynamicMain listing fetch (fun _ => none) rid q folder
              st).1).2, o = Outcome.skipped) ∧
        (∀ f ∈ (fetch_model_files listing rid q []).1,
          ((dynamicMain listing fetch (fun _ => none) rid q folder
            (dynamicMain listing fetch (fun _ => none) rid q folder
              st).1).1).fs (dynamic_target_path folder f) =
          ((dynamicMain listing fetch (fun _ => none) rid q folder
            st).1).fs (dynamic_target_path folder f))) ∧
      (∀ (fetchS : String → Except String Content) (stS : St),
        (∀ m ∈ MODEL_FILES, ∃ c, fetchS m.2.1 = .ok c) →
        ((∀ o ∈ (staticMain fetchS (fun _ => none)
            (staticMain fetchS (fun _ => none) stS).1).2,
            o = Outcome.skipped) ∧
          (∀ m ∈ MODEL_FILES,
            ((staticMain fetchS (fun _ => none)
              (staticMain fetchS (fun _ => none) stS).1).1).fs
              (static_target_path m.2.2 m.2.1) =
            ((staticMain fetchS (fun _ => none) stS).1).fs
              (static_target_path m.2.2 m.2.1))))) := by
  intro listing fetch rid q folder st h1 h2
  constructor
  · cases hE : (fetch_model_files listing rid q []).1.isEmpty with
    | true =>
      have hnil : (fetch_model_files listing rid q []).1 = [] :=
        List.isEmpty_iff.mp hE
      constructor
      · intro o ho
        rw [dynamicMain_of_empty listing fetch (fun _ => none) rid q folder
          _ hE] at ho
        simp at ho
      · intro f hf
        rw [hnil] at hf
        exact absurd hf (List.not_mem_nil f)
    | false =>
      have hstep1 := dynamicMain_of_nonempty listing fetch (fun _ => none)
        rid q folder st hE
      have hstep2 := dynamicMain_of_nonempty listing fetch (fun _ => none)
        rid q folder
        (dynamicMain listing fetch (fun _ => none) rid q folder st).1 hE
      have hcore := par_run2 fetch folder
        (fetch_model_files listing rid q []).1
        ⟨st.fs, (fetch_model_files listing rid q (st.log ++
          ["Starting GGUF model download process..."])).2⟩
        ⟨((dynamicMain listing fetch (fun _ => none) rid q folder st).1).fs,
          (fetch_model_files listing rid q
            (((dynamicMain listing fetch (fun _ => none) rid q folder
              st).1).log ++
              ["Starting GGUF model download process..."])).2⟩
        (by rw [hstep1]; rfl)
        h1 (fun f g hf hg => h2 f hf g hg)
      constructor
      · intro o ho
        rw [hstep2] at ho
        exact hcore.1 o ho
      · intro f hf
        have e2 : ((dynamicMain listing fetch (fun _ => none) rid q folder
            (dynamicMain listing fetch (fun _ => none) rid q folder
              st).1).1).fs (dynamic_target_path folder f) =
            (parallel_download fetch (fun _ => none)
              (fetch_model_files listing rid q []).1 folder
              ⟨((dynamicMain listing fetch (fun _ => none) rid q folder
                st).1).fs,
                (fetch_model_files listing rid q
                  (((dynamicMain listing fetch (fun _ => none) rid q folder
                    st).1).log ++
                    ["Starting GGUF model download process..."])).2⟩).1.fs
              (dynamic_target_path folder f) := by
          rw [hstep2]
          rfl
        exact e2.trans (hcore.2 f hf)
  · intro fetchS stS h1S
    have h2S : ∀ m m', m ∈ MODEL_FILES → m' ∈ MODEL_FILES →
        cachePath m'.2.1 ≠ static_target_path m.2.2 m.2.1 := by
      have hd : ∀ m ∈ MODEL_FILES, ∀ m' ∈ MODEL_FILES,
          cachePath m'.2.1 ≠ static_target_path m.2.2 m.2.1 := by decide
      exact fun m m' hm hm' => hd m hm m' hm'
    have hcore := runModels_run2 fetchS MODEL_FILES
      (stLog stS "Download script started.")
      (stLog (staticMain fetchS (fun _ => none) stS).1
        "Download script started.")
      (by rw [staticMain_unfold]; rfl) h1S h2S
    constructor
    · intro o ho
      rw [staticMain_unfold] at ho
      exact hcore.1 o ho
    · intro m hm
      have e2 : ((staticMain fetchS (fun _ => none)
          (staticMain fetchS (fun _ => none) stS).1).1).fs
            (static_target_path m.2.2 m.2.1) =
          (runModels fetchS (fun _ => none) MODEL_FILES
            (stLog (staticMain fetchS (fun _ => none) stS).1
              "Download script started.")).1.fs
            (static_target_path m.2.2 m.2.1) := by
        rw [staticMain_unfold]
        rfl
      exact e2.trans (hcore.2 m hm)

/-- Witness for C7 on a one-file repository with a succeeding fetch: the
second dynamic run leaves the file's target entry exactly as the first
run did. -/
theorem pipeline_idempotent_witness :
    ((dynamicMain (.ok ["A-Q8_0.gguf"]) (fun _ => .ok "DATA")
        (fun _ => none) REPO_ID "Q8_0" "/app/models"
        (dynamicMain (.ok ["A-Q8_0.gguf"]) (fun _ => .ok "DATA")
          (fun _ => none) REPO_ID "Q8_0" "/app/models"
          ⟨fun _ => none, []⟩).1).1).fs
      (dynamic_target_path "/app/models" "A-Q8_0.gguf") =
    ((dynamicMain (.ok ["A-Q8_0.gguf"]) (fun _ => .ok "DATA")
        (fun _ => none) REPO_ID "Q8_0" "/app/models"
        ⟨fun _ => none, []⟩).1).fs
      (dynamic_target_path "/app/models" "A-Q8_0.gguf") := by
  have h := pipeline_idempotent (.ok ["A-Q8_0.gguf"])
    (fun _ => .ok "DATA") REPO_ID "Q8_0" "/app/models" ⟨fun _ => none, []⟩
    (fun f _ => ⟨"DATA", rfl⟩) (by decide)
  exact h.1.2 "A-Q8_0.gguf" (by decide)
